import Mathlib

/-!
Verification of the task scheduling, dispatch and retry subsystem of the
claudemini/utils repository: shallow embedding of `task_error_handler.py`,
`task_daemon.py`, `task_scheduler.py`, `cron_scheduler.py` and
`claude_executor.py`, followed by theorems about the embedded operations.
Wall-clock time is modelled in whole seconds as `Nat`.
-/

namespace ErrorHandler

/-- Result of one spawn of the task command (`subprocess.run` in
`TaskErrorHandler.execute_with_retry`, task_error_handler.py lines 132-138):
the process either exits with a return code or hits the timeout
(`subprocess.TimeoutExpired`). -/
inductive SpawnResult where
  | exit : Int → SpawnResult
  | timedOut : SpawnResult
deriving DecidableEq, Repr

/-- Models the `result.returncode == 0` success test (line 140); a timeout is
caught as an exception and counts as a failure (lines 156-158). -/
def spawn_ok : SpawnResult → Bool
  | .exit c => c == 0
  | .timedOut => false

/-- One entry of the persisted error state, `self.error_state[task_id]`
(task_error_handler.py lines 99-106).  The dictionary key is
`md5(task_name)[:8]`; the hash is used only as a lookup key, so state is
modelled as keyed by the task name itself. -/
structure TaskState where
  task_name : String
  failures : Nat
  last_failure : Option Nat
  last_success : Option Nat
  consecutive_failures : Nat
deriving DecidableEq, Repr

/-- Entry created when a task is first seen (lines 99-106). -/
def fresh_state (name : String) : TaskState :=
  { task_name := name, failures := 0, last_failure := none,
    last_success := none, consecutive_failures := 0 }

/-- Per-task override dictionary shape of `self.task_configs`
(task_error_handler.py lines 41-62); a key the dictionary does not carry is
`none` and falls back to `default_retry_config` field by field through
`config.get(key, default)` at the use sites. -/
structure RetryOverride where
  max_retries : Option Nat
  base_delay : Option Nat
  max_delay : Option Nat
  exponential_base : Option Nat
  critical : Option Bool
deriving DecidableEq, Repr

/-- Fully resolved retry configuration: the shape of
`self.default_retry_config` (lines 33-38) plus the `critical` flag, which is
read with default `False` (lines 177 and 219). -/
structure RetryConfig where
  max_retries : Nat
  base_delay : Nat
  max_delay : Nat
  exponential_base : Nat
  critical : Bool
deriving DecidableEq, Repr

/-- The values of `self.default_retry_config` (lines 33-38): 3 retries, 60 s
base delay, 3600 s cap, exponential base 2. -/
def default_retry_config : RetryConfig :=
  { max_retries := 3, base_delay := 60, max_delay := 3600,
    exponential_base := 2, critical := false }

/-- The four entries of `self.task_configs` (lines 41-62). -/
def task_configs (name : String) : Option RetryOverride :=
  if name = "crypto_market_analysis" then
    some { max_retries := some 5, base_delay := some 120, max_delay := none,
           exponential_base := none, critical := some false }
  else if name = "twitter_engagement" then
    some { max_retries := some 3, base_delay := some 300, max_delay := none,
           exponential_base := none, critical := some false }
  else if name = "portfolio_rebalancing" then
    some { max_retries := some 2, base_delay := some 600, max_delay := none,
           exponential_base := none, critical := some true }
  else if name = "memory_pattern_analysis" then
    some { max_retries := some 4, base_delay := some 180, max_delay := none,
           exponential_base := none, critical := some false }
  else
    none

/-- Field-by-field resolution
`config = self.task_configs.get(task_name, self.default_retry_config)` then
`config.get(key, self.default_retry_config[key])`, as performed at lines
85-88, 109-110 and 177. -/
def resolve_config (name : String) : RetryConfig :=
  match task_configs name with
  | none => default_retry_config
  | some o =>
    { max_retries := o.max_retries.getD default_retry_config.max_retries,
      base_delay := o.base_delay.getD default_retry_config.base_delay,
      max_delay := o.max_delay.getD default_retry_config.max_delay,
      exponential_base :=
        o.exponential_base.getD default_retry_config.exponential_base,
      critical := o.critical.getD false }

/-- `TaskErrorHandler._get_retry_delay` (lines 83-91):
`min(base_delay * (exp_base ** attempt), max_delay)`. -/
def get_retry_delay (name : String) (attempt : Nat) : Nat :=
  let c := resolve_config name
  min (c.base_delay * c.exponential_base ^ attempt) c.max_delay

/-- Skip guard of `execute_with_retry` (lines 112-121): the call is skipped
when `consecutive_failures >= max_retries` and the last failure is less than
one hour old.  The source reads `task_state["last_failure"]` unconditionally
there and would raise on a missing value; that corner is unreachable from
states the handler itself writes, because a nonzero `consecutive_failures` is
always stored together with `last_failure`; it is modelled as no skip. -/
def skip_guard (st : TaskState) (mr : Nat) (now : Nat) : Bool :=
  decide (mr ≤ st.consecutive_failures) &&
    (match st.last_failure with
     | some t => decide (now - t < 3600)
     | none => false)

/-- Trace entry for one scheduled retry: the time of the failure that caused
it, the value `consecutive_failures` was incremented to, the computed delay,
and the time of the retried attempt (after `time.sleep(delay)`,
lines 170-174). -/
structure RetryEvent where
  failTime : Nat
  cfAfter : Nat
  delay : Nat
  retryTime : Nat
deriving DecidableEq, Repr

/-- Observable outcome of one `execute_with_retry` call: the fields of the
returned dict (`success`, `skipped`, `attempts`; the skip path returns a dict
with no `attempts` entry, lines 117-121), together with the instrumented
trace of the call: how many times `subprocess.run` spawned the command, the
scheduled retries, how often `_handle_critical_failure` ran, the final
persisted task state and the finishing time. -/
structure RetryOutcome where
  success : Bool
  skipped : Bool
  attempts : Option Nat
  spawns : Nat
  events : List RetryEvent
  alerts : Nat
  finalState : TaskState
  endTime : Nat
deriving DecidableEq, Repr

/-- Retry loop of `execute_with_retry` (lines 124-184).  The source iterates
`while attempt <= max_retries`; here `remaining` renders
`max_retries - attempt`, so the loop is entered with `attempt = 0` and
`remaining = max_retries`, and the bottom-of-loop test
`attempt + 1 <= max_retries` (line 171) is the test `remaining > 0`.
`runs k` gives the result of the (k+1)-st spawn of the command.  On success
(line 140) the state records the success time and resets
`consecutive_failures`; on failure the failure counters and `last_failure`
are written (lines 163-167), and if a retry is still allowed the loop sleeps
for `_get_retry_delay(task_name, attempt)` with the already incremented
`attempt` (lines 170-174).  When all retries are exhausted,
`_handle_critical_failure` runs exactly when the resolved config has the
`critical` flag (lines 176-178). -/
def exec_loop (name : String) (runs : Nat → SpawnResult) (attempt remaining : Nat)
    (st : TaskState) (now : Nat) (evs : List RetryEvent) (spawned : Nat) :
    RetryOutcome :=
  if spawn_ok (runs attempt) then
    { success := true, skipped := false, attempts := some (attempt + 1),
      spawns := spawned + 1, events := evs, alerts := 0,
      finalState :=
        { st with last_success := some now, consecutive_failures := 0 },
      endTime := now }
  else
    let st' : TaskState :=
      { st with failures := st.failures + 1,
                consecutive_failures := st.consecutive_failures + 1,
                last_failure := some now }
    match remaining with
    | 0 =>
      { success := false, skipped := false, attempts := some (attempt + 1),
        spawns := spawned + 1, events := evs,
        alerts := if (resolve_config name).critical then 1 else 0,
        finalState := st', endTime := now }
    | rem + 1 =>
      let d := get_retry_delay name (attempt + 1)
      exec_loop name runs (attempt + 1) rem st' (now + d)
        (evs ++ [{ failTime := now, cfAfter := st'.consecutive_failures,
                   delay := d, retryTime := now + d }])
        (spawned + 1)

/-- `TaskErrorHandler.execute_with_retry` (lines 93-184) acting on one task's
state.  `st0` is the looked-up entry of the persisted error state (`none`
when the task has no entry yet, in which case a fresh entry is initialised,
lines 99-106). -/
def execute_with_retry (name : String) (runs : Nat → SpawnResult)
    (st0 : Option TaskState) (now : Nat) : RetryOutcome :=
  let st := st0.getD (fresh_state name)
  let mr := (resolve_config name).max_retries
  if skip_guard st mr now then
    { success := false, skipped := true, attempts := none, spawns := 0,
      events := [], alerts := 0, finalState := st, endTime := now }
  else
    exec_loop name runs 0 mr st now [] 0

/-- `TaskErrorHandler.reset_task_state` (lines 226-232): when the task has a
state entry, its `consecutive_failures` is set to 0 and nothing else changes;
when it has none, the whole state is left untouched. -/
def reset_task_state (es : String → Option TaskState) (name : String) :
    String → Option TaskState :=
  match es name with
  | none => es
  | some st => fun n =>
      if n = name then some { st with consecutive_failures := 0 } else es n

/-- Statement shape for the i-th scheduled retry (0-based) of a call that
starts from a clean failure count: it follows the (i+1)-st consecutive
failure, its delay is `min(base_delay * exponential_base ^ (i+1), max_delay)`
under the task's resolved configuration, and the retried attempt happens
exactly delay seconds after the failure that caused it. -/
abbrev event_ok (name : String) (i : Nat) (e : RetryEvent) : Prop :=
  e.cfAfter = i + 1 ∧
  e.delay = min ((resolve_config name).base_delay *
                 (resolve_config name).exponential_base ^ (i + 1))
               (resolve_config name).max_delay ∧
  e.retryTime = e.failTime + e.delay

end ErrorHandler

namespace Daemon

/-- Values the scheduling code writes into `scheduled_tasks.status`
(task_daemon.py lines 186-188 and 250-255, task_scheduler.py lines 143-146
and 154-157). -/
inductive TStatus where
  | active
  | completed
  | failed
deriving DecidableEq, Repr

/-- Schedule kinds distinguished by `TaskDaemon.execute_task` (task_daemon.py
line 175): the strings `interval` and `recurring` take the reschedule
branch; anything else, in particular `once`, takes the one-time branch. -/
inductive ScheduleType where
  | interval
  | recurring
  | once
deriving DecidableEq, Repr

/-- Row of `scheduled_tasks` restricted to the fields the scheduling code
reads and writes. -/
structure Task where
  id : Nat
  is_active : Bool
  status : TStatus
  next_run_at : Option Nat
  last_run_at : Option Nat
  priority : Int
  schedule_type : ScheduleType
  interval_seconds : Nat
deriving DecidableEq, Repr

/-- Status of a `task_executions` row. -/
inductive ExecStatus where
  | running
  | success
  | failed
  | timeout
deriving DecidableEq, Repr

/-- Row of `task_executions` restricted to the fields the claims need. -/
structure ExecRecord where
  id : Nat
  task_id : Nat
  status : ExecStatus
deriving DecidableEq, Repr

/-- The two tables the scheduling code touches. -/
structure Store where
  tasks : List Task
  executions : List ExecRecord
deriving DecidableEq, Repr

/-- WHERE clause of `get_pending_tasks` (task_daemon.py lines 94-100):
`is_active = TRUE AND next_run_at <= NOW()`; a NULL `next_run_at` never
satisfies the comparison. -/
def is_due (t : Task) (now : Nat) : Bool :=
  t.is_active &&
    (match t.next_run_at with
     | some r => decide (r ≤ now)
     | none => false)

/-- The due rows returned by `get_pending_tasks`.  The ORDER BY
priority DESC, next_run_at ASC and the LIMIT 5 of the query only affect the
order and batch size within a tick and are not modelled. -/
def get_pending_tasks (s : Store) (now : Nat) : List Task :=
  s.tasks.filter (fun t => is_due t now)

/-- Claim step shared by `TaskScheduler.start_task_execution`
(task_scheduler.py lines 71-94) and the opening of `TaskDaemon.execute_task`
(task_daemon.py lines 112-127): unconditionally INSERT an execution record in
status `running` and UPDATE the task's `last_run_at`.  Neither site checks
whether the task already has a `running` execution record. -/
def start_task_execution (s : Store) (tid now eid : Nat) : Store :=
  { tasks := s.tasks.map
      (fun t => if t.id = tid then { t with last_run_at := some now } else t),
    executions :=
      s.executions ++ [{ id := eid, task_id := tid, status := .running }] }

/-- Number of execution records of a task currently in status `running`. -/
def runningCount (s : Store) (tid : Nat) : Nat :=
  (s.executions.filter
    (fun e => decide (e.task_id = tid) &&
              decide (e.status = ExecStatus.running))).length

/-- In-memory retry counters `self.retry_attempts` (task_daemon.py line 40):
the dictionary is empty when the daemon object is constructed, so after a
restart every task's count reads as 0. -/
def init_retry_attempts : Nat → Nat := fun _ => 0

/-- `self.max_retries = 3` (task_daemon.py line 41). -/
def daemon_max_retries : Nat := 3

/-- Fixed backoff table `self.retry_delays = [60, 300, 900]`
(task_daemon.py line 42). -/
def retry_delays : List Nat := [60, 300, 900]

/-- Delay chosen at task_daemon.py line 239:
`self.retry_delays[min(retry_count - 1, len(self.retry_delays) - 1)]`. -/
def retry_delay_at (rc : Nat) : Nat :=
  retry_delays.getD (min (rc - 1) (retry_delays.length - 1)) 0

/-- Result of `TaskDaemon._handle_task_failure` (task_daemon.py lines
215-270) for one task: the new in-memory retry count, the updated
`scheduled_tasks` row, the status the execution record is finalised with, and
whether a memory note about the failure was stored. -/
structure FailureResult where
  retry_count : Nat
  task : Task
  exec_status : ExecStatus
  memory_note : Bool
deriving DecidableEq, Repr

/-- `TaskDaemon._handle_task_failure` (task_daemon.py lines 215-270): the
retry count is incremented; while it is at most `max_retries` the task is
rescheduled `retry_delays[...]` seconds ahead; past that the task row gets
status `failed` and a NULL `next_run_at` (its `is_active` flag is not
touched) and a memory note is stored. -/
def handle_task_failure (rc_before : Nat) (t : Task) (es : ExecStatus)
    (now : Nat) : FailureResult :=
  let rc := rc_before + 1
  if rc ≤ daemon_max_retries then
    { retry_count := rc,
      task := { t with next_run_at := some (now + retry_delay_at rc) },
      exec_status := es, memory_note := false }
  else
    { retry_count := rc,
      task := { t with status := .failed, next_run_at := none },
      exec_status := es, memory_note := true }

/-- Iterated consecutive failures of one task through
`_handle_task_failure`, all reported at time `now`. -/
def run_failures : Nat → Nat → Task → Nat → Nat × Task
  | 0, rc, t, _ => (rc, t)
  | n + 1, rc, t, now =>
    let r := handle_task_failure rc t .failed now
    run_failures n r.retry_count r.task now

/-- Success branch of `TaskDaemon.execute_task` (task_daemon.py lines
161-188): an `interval` or `recurring` task is rescheduled to
`NOW() + interval_seconds`; a one-time task is only marked `completed`, its
`next_run_at` is not written. -/
def reschedule_on_success (t : Task) (now : Nat) : Task :=
  if t.schedule_type = .interval ∨ t.schedule_type = .recurring then
    { t with next_run_at := some (now + t.interval_seconds) }
  else
    { t with status := .completed }

/-- Success bookkeeping of `TaskDaemon.execute_task` (task_daemon.py lines
161-188): the task's `retry_attempts` entry is deleted (first component:
the entry after the deletion) and the task row is rescheduled. -/
def handle_success (t : Task) (now : Nat) : Option Nat × Task :=
  (none, reschedule_on_success t now)

/-- Start-up path of `TaskDaemon.run` (task_daemon.py lines 314-328): it
loads CLAUDE.md and the environment (`load_context`), opens the database
connection (`connect_db`) and immediately enters `main_loop` (lines
272-312).  No statement reads or writes `task_executions` or
`scheduled_tasks` before the first tick of the loop, so with respect to the
store the start-up is the identity. -/
def startup (s : Store) : Store := s

end Daemon

namespace Executor

/-- Outcome status values of `ClaudeExecutor.execute_claude_command`
(claude_executor.py lines 43-90) and of `CronScheduler.run_task`
(cron_scheduler.py lines 179-213). -/
inductive Status where
  | success
  | failed
  | timeout
deriving DecidableEq, Repr

/-- Status computed by `ClaudeExecutor.execute_claude_command`
(claude_executor.py lines 43-90): `subprocess.TimeoutExpired` yields
`timeout`; otherwise return code 0 yields `success` and any other return
code yields `failed`. -/
def execute_claude_command (timedOut : Bool) (returncode : Int) : Status :=
  if timedOut then .timeout
  else if returncode = 0 then .success
  else .failed

end Executor

namespace Cron

/-- Result written by `CronScheduler.run_task` for a task with a timeout
(cron_scheduler.py lines 179-213): the new `last_status` and the new
`retry_count`.  A timeout sets status `timeout` and increments the retry
count (lines 183-192); exit code 0 sets `success` and resets the count to 0
(lines 199-202); a nonzero exit sets `failed` and increments the count
(lines 203-208). -/
def run_task_outcome (retry_count : Nat) (timedOut : Bool)
    (returncode : Int) : Executor.Status × Nat :=
  if timedOut then (.timeout, retry_count + 1)
  else if returncode = 0 then (.success, 0)
  else (.failed, retry_count + 1)

end Cron

/-- Demonstration task row: active, due since time 50, on a 60 second
interval schedule. -/
def demoTask : Daemon.Task :=
  { id := 1, is_active := true, status := Daemon.TStatus.active,
    next_run_at := some 50, last_run_at := none, priority := 5,
    schedule_type := Daemon.ScheduleType.interval, interval_seconds := 60 }

/-- Demonstration store: task 1 is active and due, and already has execution
record 7 in status `running` (for instance left over from a crash during a
previous execution). -/
def demoStore : Daemon.Store :=
  { tasks := [demoTask],
    executions := [{ id := 7, task_id := 1, status := Daemon.ExecStatus.running }] }

namespace ErrorHandler

theorem exec_loop_never_skipped (name : String) (runs : Nat → SpawnResult) :
    ∀ (remaining attempt : Nat) (st : TaskState) (now : Nat)
      (evs : List RetryEvent) (spawned : Nat),
      (exec_loop name runs attempt remaining st now evs spawned).skipped = false := by
  intro remaining
  induction remaining with
  | zero =>
    intro attempt st now evs spawned
    unfold exec_loop
    by_cases h : spawn_ok (runs attempt) <;> simp [h]
  | succ rem ih =>
    intro attempt st now evs spawned
    unfold exec_loop
    by_cases h : spawn_ok (runs attempt)
    · simp [h]
    · simp only [h, Bool.false_eq_true, if_false]
      apply ih

theorem exec_loop_spawns_le (name : String) (runs : Nat → SpawnResult) :
    ∀ (remaining attempt : Nat) (st : TaskState) (now : Nat)
      (evs : List RetryEvent) (spawned : Nat),
      (exec_loop name runs attempt remaining st now evs spawned).spawns ≤
        spawned + remaining + 1 := by
  intro remaining
  induction remaining with
  | zero =>
    intro attempt st now evs spawned
    unfold exec_loop
    by_cases h : spawn_ok (runs attempt) <;> simp [h]
  | succ rem ih =>
    intro attempt st now evs spawned
    unfold exec_loop
    by_cases h : spawn_ok (runs attempt)
    · simp [h]
    · simp only [h, Bool.false_eq_true, if_false]
      calc (exec_loop name runs (attempt + 1) rem _ _ _ (spawned + 1)).spawns ≤
            (spawned + 1) + rem + 1 := ih ..
        _ ≤ spawned + (rem + 1) + 1 := by omega

theorem exec_loop_attempts_spawns (name : String) (runs : Nat → SpawnResult) :
    ∀ (remaining attempt : Nat) (st : TaskState) (now : Nat)
      (evs : List RetryEvent) (spawned : Nat),
      spawned = attempt →
      (exec_loop name runs attempt remaining st now evs spawned).attempts =
        some (exec_loop name runs attempt remaining st now evs spawned).spawns := by
  intro remaining
  induction remaining with
  | zero =>
    intro attempt st now evs spawned hsp
    unfold exec_loop
    by_cases h : spawn_ok (runs attempt) <;> simp [h, hsp]
  | succ rem ih =>
    intro attempt st now evs spawned hsp
    unfold exec_loop
    by_cases h : spawn_ok (runs attempt)
    · simp [h, hsp]
    · simp only [h, Bool.false_eq_true, if_false]
      exact ih (attempt + 1) _ _ _ (spawned + 1) (by omega)

theorem exec_loop_events_spawns (name : String) (runs : Nat → SpawnResult) :
    ∀ (remaining attempt : Nat) (st : TaskState) (now : Nat)
      (evs : List RetryEvent) (spawned : Nat),
      (exec_loop name runs attempt remaining st now evs spawned).events.length +
          spawned + 1 =
        evs.length + (exec_loop name runs attempt remaining st now evs spawned).spawns := by
  intro remaining
  induction remaining with
  | zero =>
    intro attempt st now evs spawned
    unfold exec_loop
    by_cases h : spawn_ok (runs attempt) <;> simp [h] <;> omega
  | succ rem ih =>
    intro attempt st now evs spawned
    unfold exec_loop
    by_cases h : spawn_ok (runs attempt)
    · simp [h]; omega
    · simp only [h, Bool.false_eq_true, if_false]
      have := ih (attempt + 1)
        { st with failures := st.failures + 1,
                  consecutive_failures := st.consecutive_failures + 1,
                  last_failure := some now }
        (now + get_retry_delay name (attempt + 1))
        (evs ++ [{ failTime := now, cfAfter := st.consecutive_failures + 1,
                   delay := get_retry_delay name (attempt + 1),
                   retryTime := now + get_retry_delay name (attempt + 1) }])
        (spawned + 1)
      simp only [List.length_append, List.length_singleton] at this
      omega

theorem exec_loop_time (name : String) (runs : Nat → SpawnResult) :
    ∀ (remaining attempt : Nat) (st : TaskState) (now : Nat)
      (evs : List RetryEvent) (spawned : Nat),
      (exec_loop name runs attempt remaining st now evs spawned).endTime +
          (evs.map RetryEvent.delay).sum =
        now + ((exec_loop name runs attempt remaining st now evs spawned).events.map
                RetryEvent.delay).sum := by
  intro remaining
  induction remaining with
  | zero =>
    intro attempt st now evs spawned
    unfold exec_loop
    by_cases h : spawn_ok (runs attempt) <;> simp [h]
  | succ rem ih =>
    intro attempt st now evs spawned
    unfold exec_loop
    by_cases h : spawn_ok (runs attempt)
    · simp [h]
    · simp only [h, Bool.false_eq_true, if_false]
      have := ih (attempt + 1)
        { st with failures := st.failures + 1,
                  consecutive_failures := st.consecutive_failures + 1,
                  last_failure := some now }
        (now + get_retry_delay name (attempt + 1))
        (evs ++ [{ failTime := now, cfAfter := st.consecutive_failures + 1,
                   delay := get_retry_delay name (attempt + 1),
                   retryTime := now + get_retry_delay name (attempt + 1) }])
        (spawned + 1)
      simp only [List.map_append, List.map_cons, List.map_nil, List.sum_append,
        List.sum_cons, List.sum_nil] at this
      omega

theorem exec_loop_success_resets (name : String) (runs : Nat → SpawnResult) :
    ∀ (remaining attempt : Nat) (st : TaskState) (now : Nat)
      (evs : List RetryEvent) (spawned : Nat),
      (exec_loop name runs attempt remaining st now evs spawned).success = true →
      (exec_loop name runs attempt remaining st now evs spawned).finalState.consecutive_failures = 0 ∧
      (exec_loop name runs attempt remaining st now evs spawned).finalState.last_success =
        some (exec_loop name runs attempt remaining st now evs spawned).endTime := by
  intro remaining
  induction remaining with
  | zero =>
    intro attempt st now evs spawned hs
    unfold exec_loop at hs ⊢
    by_cases h : spawn_ok (runs attempt) <;> simp [h] at hs ⊢
  | succ rem ih =>
    intro attempt st now evs spawned hs
    unfold exec_loop at hs ⊢
    by_cases h : spawn_ok (runs attempt)
    · simp [h]
    · simp only [h, Bool.false_eq_true, if_false] at hs ⊢
      exact ih _ _ _ _ _ hs

theorem exec_loop_all_fail (name : String) (runs : Nat → SpawnResult)
    (hf : ∀ k, spawn_ok (runs k) = false) :
    ∀ (remaining attempt : Nat) (st : TaskState) (now : Nat)
      (evs : List RetryEvent) (spawned : Nat),
      (exec_loop name runs attempt remaining st now evs spawned).spawns =
          spawned + remaining + 1 ∧
      (exec_loop name runs attempt remaining st now evs spawned).success = false ∧
      (exec_loop name runs attempt remaining st now evs spawned).alerts =
          (if (resolve_config name).critical then 1 else 0) ∧
      (exec_loop name runs attempt remaining st now evs spawned).finalState.consecutive_failures =
          st.consecutive_failures + remaining + 1 := by
  intro remaining
  induction remaining with
  | zero =>
    intro attempt st now evs spawned
    unfold exec_loop
    simp [hf attempt]
  | succ rem ih =>
    intro attempt st now evs spawned
    unfold exec_loop
    simp only [hf attempt, Bool.false_eq_true, if_false]
    have := ih (attempt + 1)
      { st with failures := st.failures + 1,
                consecutive_failures := st.consecutive_failures + 1,
                last_failure := some now }
      (now + get_retry_delay name (attempt + 1))
      (evs ++ [{ failTime := now, cfAfter := st.consecutive_failures + 1,
                 delay := get_retry_delay name (attempt + 1),
                 retryTime := now + get_retry_delay name (attempt + 1) }])
      (spawned + 1)
    refine ⟨by omega, this.2.1, this.2.2.1, ?_⟩
    have h4 := this.2.2.2
    simp only at h4
    omega

theorem exec_loop_events_ok (name : String) (runs : Nat → SpawnResult) :
    ∀ (remaining attempt : Nat) (st : TaskState) (now : Nat)
      (evs : List RetryEvent) (spawned : Nat),
      st.consecutive_failures = attempt →
      evs.length = attempt →
      (∀ i (h : i < evs.length), event_ok name i evs[i]) →
      ∀ i (h : i < (exec_loop name runs attempt remaining st now evs spawned).events.length),
        event_ok name i (exec_loop name runs attempt remaining st now evs spawned).events[i] := by
  intro remaining
  induction remaining with
  | zero =>
    intro attempt st now evs spawned hcf hlen hgood
    unfold exec_loop
    by_cases h : spawn_ok (runs attempt)
    · simpa [h] using hgood
    · simpa [h] using hgood
  | succ rem ih =>
    intro attempt st now evs spawned hcf hlen hgood
    unfold exec_loop
    by_cases h : spawn_ok (runs attempt)
    · simpa [h] using hgood
    · simp only [h, Bool.false_eq_true, if_false]
      apply ih (attempt + 1)
      · simpa using (by omega : st.consecutive_failures + 1 = attempt + 1)
      · simp [hlen]
      · intro i hi
        simp only [List.length_append, List.length_singleton] at hi
        by_cases hlt : i < evs.length
        · rw [List.getElem_append_left hlt]
          exact hgood i hlt
        · have hieq : i = evs.length := by omega
          rw [List.getElem_concat_length _ _ _ hieq]
          refine ⟨by simp [hcf, hieq, hlen], ?_, rfl⟩
          simp only [hieq, hlen, get_retry_delay]


theorem execute_with_retry_eq_skip (name : String) (runs : Nat → SpawnResult)
    (st0 : Option TaskState) (now : Nat)
    (hs : skip_guard (st0.getD (fresh_state name))
        (resolve_config name).max_retries now = true) :
    execute_with_retry name runs st0 now =
      { success := false, skipped := true, attempts := none, spawns := 0,
        events := [], alerts := 0, finalState := st0.getD (fresh_state name),
        endTime := now } := by
  unfold execute_with_retry
  simp [hs]

theorem execute_with_retry_eq_loop (name : String) (runs : Nat → SpawnResult)
    (st0 : Option TaskState) (now : Nat)
    (hs : skip_guard (st0.getD (fresh_state name))
        (resolve_config name).max_retries now = false) :
    execute_with_retry name runs st0 now =
      exec_loop name runs 0 (resolve_config name).max_retries
        (st0.getD (fresh_state name)) now [] 0 := by
  unfold execute_with_retry
  simp [hs]

theorem skip_guard_fresh (name : String) (mr now : Nat) :
    skip_guard (fresh_state name) mr now = false := by
  simp [skip_guard, fresh_state]

end ErrorHandler

/-!
Claim theorems.  Each claim of the specification is settled against the
embedded operations above.
-/

/-- C1: the claim step performs no check for an existing `running` execution
record.  Starting from a store in which task 1 is active, due, and already
has execution record 7 in status `running`, the task is still selected as
pending and `start_task_execution` creates a second `running` record for it,
so the task then has two concurrently running executions.  This evaluates
the code at the failing input of the claim. -/
theorem c1_claim_step_creates_second_running_record :
    Daemon.runningCount demoStore 1 = 1 ∧
    demoTask ∈ Daemon.get_pending_tasks demoStore 100 ∧
    Daemon.runningCount (Daemon.start_task_execution demoStore 1 100 8) 1 = 2 := by
  decide

/-- C5: the start-up path of `TaskDaemon.run` performs no reconciliation of
orphaned execution records: starting the daemon over a store that still
holds execution record 7 in status `running` leaves that record in status
`running` (it is not finalised as `failed` with reason "orphaned by
restart"), and the freshly constructed in-memory retry state carries no
failure for the owning task.  This evaluates the code at the failing input
of the claim. -/
theorem c5_startup_leaves_orphaned_running_record :
    Daemon.startup demoStore = demoStore ∧
    (Daemon.startup demoStore).executions =
      [{ id := 7, task_id := 1, status := Daemon.ExecStatus.running }] ∧
    Daemon.init_retry_attempts 1 = 0 := by
  decide

/-- C2 counterexample: after `daemon_max_retries + 1 = 4` consecutive
failures the task row of the demonstration task does not have
`is_active = false`; the disable path writes `status = failed` and
`next_run_at = NULL` but never touches `is_active`. -/
theorem c2_counterexample_is_active_not_cleared :
    ¬ ((Daemon.run_failures (Daemon.daemon_max_retries + 1) 0 demoTask 0).2.is_active
        = false) := by
  decide

/-- C2 (amended): after exactly `max_retries + 1` consecutive failures the
task reaches its terminal disabled state with `status = failed` and
`next_run_at = NULL`, while `is_active` is left unchanged (the task is
dormant nevertheless, because a NULL `next_run_at` never satisfies the
due-task query); before that point the task is still rescheduled.  In the
error handler, a run of `max_retries + 1` failing spawns of a fresh task
ends the call unsuccessfully and invokes the critical-failure alert exactly
once when the task's resolved policy has the `critical` flag and not at all
otherwise. -/
theorem c2_disable_after_max_failures_alert_iff_critical
    (name : String) (runs : Nat → ErrorHandler.SpawnResult) (now : Nat)
    (t : Daemon.Task) (dn : Nat)
    (hf : ∀ k, ErrorHandler.spawn_ok (runs k) = false) :
    (ErrorHandler.execute_with_retry name runs
        (some (ErrorHandler.fresh_state name)) now).success = false ∧
    (ErrorHandler.execute_with_retry name runs
        (some (ErrorHandler.fresh_state name)) now).spawns =
      (ErrorHandler.resolve_config name).max_retries + 1 ∧
    (ErrorHandler.execute_with_retry name runs
        (some (ErrorHandler.fresh_state name)) now).alerts =
      (if (ErrorHandler.resolve_config name).critical then 1 else 0) ∧
    (Daemon.run_failures (Daemon.daemon_max_retries + 1) 0 t dn).2 =
      { t with status := Daemon.TStatus.failed, next_run_at := none } ∧
    (Daemon.run_failures (Daemon.daemon_max_retries + 1) 0 t dn).2.is_active =
      t.is_active ∧
    (Daemon.run_failures Daemon.daemon_max_retries 0 t dn).2.status = t.status ∧
    (Daemon.run_failures Daemon.daemon_max_retries 0 t dn).2.next_run_at =
      some (dn + 900) := by
  rw [ErrorHandler.execute_with_retry_eq_loop name runs
    (some (ErrorHandler.fresh_state name)) now
    (ErrorHandler.skip_guard_fresh name (ErrorHandler.resolve_config name).max_retries now)]
  have h := ErrorHandler.exec_loop_all_fail name runs hf
    (ErrorHandler.resolve_config name).max_retries 0
    ((some (ErrorHandler.fresh_state name)).getD (ErrorHandler.fresh_state name)) now [] 0
  refine ⟨h.2.1, ?_, h.2.2.1, rfl, rfl, rfl, rfl⟩
  rw [h.1]
  omega

/-- Witness for C2: the critical task `portfolio_rebalancing`
(max_retries = 2) fails all 3 spawns, the alert fires once, and the daemon
side disables the demonstration task after its 4th failure. -/
theorem c2_disable_after_max_failures_alert_iff_critical_witness :
    (∀ k, ErrorHandler.spawn_ok
        ((fun (_ : Nat) => ErrorHandler.SpawnResult.timedOut) k) = false) ∧
    (ErrorHandler.execute_with_retry ("portfolio_rebalancing")
        (fun _ => ErrorHandler.SpawnResult.timedOut)
        (some (ErrorHandler.fresh_state ("portfolio_rebalancing"))) 0).spawns = 3 ∧
    (ErrorHandler.execute_with_retry ("portfolio_rebalancing")
        (fun _ => ErrorHandler.SpawnResult.timedOut)
        (some (ErrorHandler.fresh_state ("portfolio_rebalancing"))) 0).alerts = 1 ∧
    (Daemon.run_failures (Daemon.daemon_max_retries + 1) 0 demoTask 10).2.next_run_at =
      none :=
  have h := c2_disable_after_max_failures_alert_iff_critical
    ("portfolio_rebalancing") (fun _ => ErrorHandler.SpawnResult.timedOut) 0
    demoTask 10 (fun _ => rfl)
  ⟨fun _ => rfl, h.2.1, h.2.2.1, by rw [h.2.2.2.1]⟩

/-- C3 counterexample: the delay is not
`min(base_delay * exponential_base ^ consecutive_failures, max_delay)` in
general.  For a task whose persisted state starts at
`consecutive_failures = 1`, the first scheduled retry raises the counter to
2 but waits `min(60 * 2 ^ 1, 3600) = 120` seconds, not
`min(60 * 2 ^ 2, 3600) = 240`: the exponent is the attempt number within the
call, not the persisted counter. -/
theorem c3_counterexample_delay_not_exponent_of_cf :
    ¬ (∀ e ∈ (ErrorHandler.execute_with_retry ("t1")
          (fun _ => ErrorHandler.SpawnResult.exit 1)
          (some { task_name := "t1", failures := 1, last_failure := some 0,
                  last_success := none, consecutive_failures := 1 }) 0).events,
        e.delay = min ((ErrorHandler.resolve_config ("t1")).base_delay *
                       (ErrorHandler.resolve_config ("t1")).exponential_base ^ e.cfAfter)
                      (ErrorHandler.resolve_config ("t1")).max_delay) := by
  decide

/-- C3 (amended): for a call that begins with `consecutive_failures = 0`,
the i-th scheduled retry (0-based) follows the failure that incremented
`consecutive_failures` to i + 1, waits exactly
`min(base_delay * exponential_base ^ (i+1), max_delay)` seconds under the
task's per-name resolved policy, and the retried attempt happens exactly
that delay after the failure (`event_ok`).  In general the exponent is the
number of failures within the current call, which coincides with
`consecutive_failures` only for calls starting at 0. -/
theorem c3_backoff_delay_formula (name : String)
    (runs : Nat → ErrorHandler.SpawnResult) (st0 : ErrorHandler.TaskState)
    (now : Nat) (h0 : st0.consecutive_failures = 0) :
    ∀ i (h : i < (ErrorHandler.execute_with_retry name runs (some st0) now).events.length),
      ErrorHandler.event_ok name i
        (ErrorHandler.execute_with_retry name runs (some st0) now).events[i] := by
  by_cases hs : ErrorHandler.skip_guard st0
      (ErrorHandler.resolve_config name).max_retries now = true
  · intro i h
    exfalso
    rw [ErrorHandler.execute_with_retry_eq_skip name runs (some st0) now hs] at h
    simp at h
  · rw [ErrorHandler.execute_with_retry_eq_loop name runs (some st0) now
      (by simpa using hs)]
    exact ErrorHandler.exec_loop_events_ok name runs
      (ErrorHandler.resolve_config name).max_retries 0 st0 now [] 0 h0 rfl
      (by intro i hi; simp at hi)

/-- Witness for C3: a fresh task under the default policy failing every
spawn; every scheduled retry satisfies `event_ok`. -/
theorem c3_backoff_delay_formula_witness :
    (ErrorHandler.fresh_state ("t1")).consecutive_failures = 0 ∧
    ∀ i (h : i < (ErrorHandler.execute_with_retry ("t1")
        (fun _ => ErrorHandler.SpawnResult.timedOut)
        (some (ErrorHandler.fresh_state ("t1"))) 0).events.length),
      ErrorHandler.event_ok ("t1") i
        (ErrorHandler.execute_with_retry ("t1")
          (fun _ => ErrorHandler.SpawnResult.timedOut)
          (some (ErrorHandler.fresh_state ("t1"))) 0).events[i] :=
  ⟨rfl, c3_backoff_delay_formula ("t1")
    (fun _ => ErrorHandler.SpawnResult.timedOut)
    (ErrorHandler.fresh_state ("t1")) 0 rfl⟩

/-- C4 counterexample: under the default policy (max_retries = 3,
base_delay = 60, exponential_base = 2) a task failing on all 4 attempts
accumulates scheduled retry delays summing to 840 seconds, not the 420 the
claim states. -/
theorem c4_counterexample_total_delay_not_420 :
    ¬ (((ErrorHandler.execute_with_retry ("daily_backup")
          (fun _ => ErrorHandler.SpawnResult.exit 1)
          (some (ErrorHandler.fresh_state ("daily_backup"))) 0).events.map
            ErrorHandler.RetryEvent.delay).sum = 420) := by
  decide

/-- C4 (amended): a task under the default policy (max_retries = 3,
base_delay = 60 s, exponential_base = 2) that fails on 4 consecutive
attempts is disabled after the 4th failure (the call ends unsuccessfully, a
follow-up call within the hour is skipped, and the daemon-side counterpart
sets `status = failed` with NULL `next_run_at`), and the three scheduled
retry delays before disablement are 120 + 240 + 480 = 840 seconds, each
capped by `max_delay`. -/
theorem c4_scenario_four_failures_total_delay_840 :
    (ErrorHandler.resolve_config ("daily_backup")).max_retries = 3 ∧
    (ErrorHandler.resolve_config ("daily_backup")).base_delay = 60 ∧
    (ErrorHandler.resolve_config ("daily_backup")).exponential_base = 2 ∧
    (ErrorHandler.execute_with_retry ("daily_backup")
        (fun _ => ErrorHandler.SpawnResult.exit 1)
        (some (ErrorHandler.fresh_state ("daily_backup"))) 0).success = false ∧
    (ErrorHandler.execute_with_retry ("daily_backup")
        (fun _ => ErrorHandler.SpawnResult.exit 1)
        (some (ErrorHandler.fresh_state ("daily_backup"))) 0).spawns = 4 ∧
    ((ErrorHandler.execute_with_retry ("daily_backup")
        (fun _ => ErrorHandler.SpawnResult.exit 1)
        (some (ErrorHandler.fresh_state ("daily_backup"))) 0).events.map
          ErrorHandler.RetryEvent.delay) = [120, 240, 480] ∧
    (∀ e ∈ (ErrorHandler.execute_with_retry ("daily_backup")
        (fun _ => ErrorHandler.SpawnResult.exit 1)
        (some (ErrorHandler.fresh_state ("daily_backup"))) 0).events,
      e.delay ≤ (ErrorHandler.resolve_config ("daily_backup")).max_delay) ∧
    (ErrorHandler.execute_with_retry ("daily_backup")
        (fun _ => ErrorHandler.SpawnResult.exit 1)
        (some (ErrorHandler.execute_with_retry ("daily_backup")
          (fun _ => ErrorHandler.SpawnResult.exit 1)
          (some (ErrorHandler.fresh_state ("daily_backup"))) 0).finalState) 900).skipped
      = true ∧
    (Daemon.run_failures (Daemon.daemon_max_retries + 1) 0 demoTask 0).2.next_run_at
      = none ∧
    (Daemon.run_failures (Daemon.daemon_max_retries + 1) 0 demoTask 0).2.status
      = Daemon.TStatus.failed := by
  decide

/-- C6: a single successful execution resets the failure state.  In the
error handler, any call that returns success leaves the task state with
`consecutive_failures = 0` and `last_success` set to the completion time; in
the daemon, a success deletes the task's in-memory retry entry and
reschedules an interval/recurring task by its normal interval (not a backoff
delay); in the cron scheduler, a zero exit resets `retry_count` to 0 from
any value. -/
theorem c6_success_resets_failure_state (name : String)
    (runs : Nat → ErrorHandler.SpawnResult) (st0 : Option ErrorHandler.TaskState)
    (now : Nat) (t : Daemon.Task) (dn : Nat) (crc : Nat) :
    ((ErrorHandler.execute_with_retry name runs st0 now).success = true →
      (ErrorHandler.execute_with_retry name runs st0 now).finalState.consecutive_failures
        = 0 ∧
      (ErrorHandler.execute_with_retry name runs st0 now).finalState.last_success =
        some (ErrorHandler.execute_with_retry name runs st0 now).endTime) ∧
    (Daemon.handle_success t dn).1 = none ∧
    (t.schedule_type = Daemon.ScheduleType.interval ∨
        t.schedule_type = Daemon.ScheduleType.recurring →
      (Daemon.handle_success t dn).2.next_run_at = some (dn + t.interval_seconds)) ∧
    Cron.run_task_outcome crc false 0 = (Executor.Status.success, 0) := by
  refine ⟨?_, rfl, ?_, rfl⟩
  · intro hsucc
    by_cases hs : ErrorHandler.skip_guard (st0.getD (ErrorHandler.fresh_state name))
        (ErrorHandler.resolve_config name).max_retries now = true
    · rw [ErrorHandler.execute_with_retry_eq_skip name runs st0 now hs] at hsucc
      simp at hsucc
    · rw [ErrorHandler.execute_with_retry_eq_loop name runs st0 now
        (by simpa using hs)] at hsucc ⊢
      exact ErrorHandler.exec_loop_success_resets name runs
        (ErrorHandler.resolve_config name).max_retries 0
        (st0.getD (ErrorHandler.fresh_state name)) now [] 0 hsucc
  · intro hst
    show (Daemon.reschedule_on_success t dn).next_run_at = some (dn + t.interval_seconds)
    unfold Daemon.reschedule_on_success
    rw [if_pos hst]

/-- Witness for C6: a fresh task succeeding on its first spawn, and the
demonstration interval task rescheduled by its interval after a success. -/
theorem c6_success_resets_failure_state_witness :
    (ErrorHandler.execute_with_retry ("t3")
      (fun _ => ErrorHandler.SpawnResult.exit 0) none 7).success = true ∧
    (ErrorHandler.execute_with_retry ("t3")
      (fun _ => ErrorHandler.SpawnResult.exit 0) none 7).finalState.consecutive_failures
      = 0 ∧
    (Daemon.handle_success demoTask 5).2.next_run_at = some (5 + 60) :=
  have h := c6_success_resets_failure_state ("t3")
    (fun _ => ErrorHandler.SpawnResult.exit 0) none 7 demoTask 5 2
  ⟨by decide, (h.1 (by decide)).1, h.2.2.1 (Or.inl rfl)⟩

/-- C7 counterexample: on success of a `once` task the daemon marks it
`completed` but leaves `next_run_at` at its old value; the next run is not
set to null after the single firing. -/
theorem c7_counterexample_once_next_run_not_null :
    ¬ ((Daemon.reschedule_on_success
        { id := 2, is_active := true, status := Daemon.TStatus.active,
          next_run_at := some 100, last_run_at := none, priority := 5,
          schedule_type := Daemon.ScheduleType.once, interval_seconds := 60 }
        200).next_run_at = none) := by
  decide

/-- C7 (amended): rescheduling after a success is a pure function of the
task and the completion time.  For an `interval` or `recurring` schedule the
next run is exactly the completion time plus the interval, which is strictly
later whenever the interval is positive; for a `once` schedule the task is
marked `completed` and its `next_run_at` is left unchanged (not set to
null). -/
theorem c7_next_run_reschedule (t : Daemon.Task) (now : Nat) :
    (t.schedule_type = Daemon.ScheduleType.interval ∨
        t.schedule_type = Daemon.ScheduleType.recurring →
      (Daemon.reschedule_on_success t now).next_run_at =
        some (now + t.interval_seconds) ∧
      (0 < t.interval_seconds →
        ∀ r, (Daemon.reschedule_on_success t now).next_run_at = some r → now < r)) ∧
    (t.schedule_type = Daemon.ScheduleType.once →
      (Daemon.reschedule_on_success t now).status = Daemon.TStatus.completed ∧
      (Daemon.reschedule_on_success t now).next_run_at = t.next_run_at) := by
  constructor
  · intro hst
    refine ⟨?_, ?_⟩
    · unfold Daemon.reschedule_on_success
      rw [if_pos hst]
    · intro hpos r hr
      unfold Daemon.reschedule_on_success at hr
      rw [if_pos hst] at hr
      have : now + t.interval_seconds = r := by simpa using hr
      omega
  · intro hst
    have hcond : ¬ (t.schedule_type = Daemon.ScheduleType.interval ∨
        t.schedule_type = Daemon.ScheduleType.recurring) := by
      rw [hst]
      decide
    constructor
    · unfold Daemon.reschedule_on_success
      rw [if_neg hcond]
    · unfold Daemon.reschedule_on_success
      rw [if_neg hcond]

/-- Witness for C7: the demonstration interval task is rescheduled to
completion time plus interval; a concrete `once` task is marked completed. -/
theorem c7_next_run_reschedule_witness :
    (Daemon.reschedule_on_success demoTask 200).next_run_at = some (200 + 60) ∧
    (Daemon.reschedule_on_success
      { id := 2, is_active := true, status := Daemon.TStatus.active,
        next_run_at := some 100, last_run_at := none, priority := 5,
        schedule_type := Daemon.ScheduleType.once, interval_seconds := 60 }
      200).status = Daemon.TStatus.completed :=
  ⟨((c7_next_run_reschedule demoTask 200).1 (Or.inl rfl)).1,
   ((c7_next_run_reschedule
      { id := 2, is_active := true, status := Daemon.TStatus.active,
        next_run_at := some 100, last_run_at := none, priority := 5,
        schedule_type := Daemon.ScheduleType.once, interval_seconds := 60 }
      200).2 rfl).1⟩

/-- C8: the executor's outcome status is a function of the pair
(timeout-exceeded, exit code): `timeout` exactly when the timeout fired,
`success` exactly on a zero exit without timeout, `failed` exactly on a
nonzero exit without timeout; the cron scheduler assigns `last_status` by
the same rule, so the three terminal statuses are mutually exclusive. -/
theorem c8_outcome_status_trichotomy (timedOut : Bool) (rc : Int) (crc : Nat) :
    (Executor.execute_claude_command timedOut rc = Executor.Status.timeout ↔
      timedOut = true) ∧
    (Executor.execute_claude_command timedOut rc = Executor.Status.success ↔
      timedOut = false ∧ rc = 0) ∧
    (Executor.execute_claude_command timedOut rc = Executor.Status.failed ↔
      timedOut = false ∧ rc ≠ 0) ∧
    (Cron.run_task_outcome crc timedOut rc).1 =
      Executor.execute_claude_command timedOut rc := by
  cases timedOut <;> by_cases h : rc = 0 <;>
    simp [Executor.execute_claude_command, Cron.run_task_outcome, h]

/-- Witness for C8: the three statuses at concrete inputs. -/
theorem c8_outcome_status_trichotomy_witness :
    Executor.execute_claude_command true 0 = Executor.Status.timeout ∧
    Executor.execute_claude_command false 0 = Executor.Status.success ∧
    Executor.execute_claude_command false 2 = Executor.Status.failed :=
  ⟨(c8_outcome_status_trichotomy true 0 0).1.mpr rfl,
   (c8_outcome_status_trichotomy false 0 0).2.1.mpr ⟨rfl, rfl⟩,
   (c8_outcome_status_trichotomy false 2 0).2.2.1.mpr ⟨rfl, by decide⟩⟩

/-- C9: `reset_task_state` on a task with a recorded entry sets that entry's
`consecutive_failures` to 0 and preserves its `task_name`, total `failures`,
`last_failure` and `last_success`; entries of other task names are
untouched; with no recorded entry nothing changes at all; and the reset
entry no longer triggers the skip guard (for any positive `max_retries`), so
a disabled task runs again. -/
theorem c9_reset_task_state_frame (es : String → Option ErrorHandler.TaskState)
    (name other : String) (st : ErrorHandler.TaskState) (mr now : Nat)
    (hst : es name = some st) (hother : other ≠ name) (hmr : 1 ≤ mr) :
    ErrorHandler.reset_task_state es name name =
      some { task_name := st.task_name, failures := st.failures,
             last_failure := st.last_failure, last_success := st.last_success,
             consecutive_failures := 0 } ∧
    ErrorHandler.reset_task_state es name other = es other ∧
    (∀ es2 : String → Option ErrorHandler.TaskState,
      es2 name = none → ∀ x, ErrorHandler.reset_task_state es2 name x = es2 x) ∧
    ErrorHandler.skip_guard { st with consecutive_failures := 0 } mr now = false := by
  refine ⟨?_, ?_, ?_, ?_⟩
  · unfold ErrorHandler.reset_task_state
    rw [hst]
    simp
  · unfold ErrorHandler.reset_task_state
    rw [hst]
    simp [hother]
  · intro es2 h2 x
    unfold ErrorHandler.reset_task_state
    rw [h2]
  · have h0 : ¬ (mr ≤ ({ st with consecutive_failures := 0 } :
        ErrorHandler.TaskState).consecutive_failures) := by
      show ¬ (mr ≤ 0)
      omega
    unfold ErrorHandler.skip_guard
    simp [h0]

/-- Witness for C9: a concrete single-entry error state is reset: the entry
keeps all fields except the cleared failure counter, and the skip guard no
longer fires on it. -/
theorem c9_reset_task_state_frame_witness :
    ErrorHandler.reset_task_state
      (fun n => if n = "a" then
        some { task_name := "a", failures := 5, last_failure := some 10,
               last_success := some 3, consecutive_failures := 7 } else none)
      ("a") ("a") =
      some { task_name := "a", failures := 5, last_failure := some 10,
             last_success := some 3, consecutive_failures := 0 } ∧
    ErrorHandler.skip_guard
      { task_name := "a", failures := 5, last_failure := some 10,
        last_success := some 3, consecutive_failures := 0 } 3 100 = false :=
  have h := c9_reset_task_state_frame
    (fun n => if n = "a" then
      some { task_name := "a", failures := 5, last_failure := some 10,
             last_success := some 3, consecutive_failures := 7 } else none)
    ("a") ("b")
    { task_name := "a", failures := 5, last_failure := some 10,
      last_success := some 3, consecutive_failures := 7 }
    3 100 (by decide) (by decide) (by decide)
  ⟨h.1, h.2.2.2⟩

/-- C10 counterexample: a call in the skip state (counter at max_retries
with a failure less than an hour old) performs zero spawns but returns a
dict with no `attempts` field at all, so the `attempts` field does not equal
the number of spawns performed. -/
theorem c10_counterexample_skipped_call_has_no_attempts :
    ¬ ((ErrorHandler.execute_with_retry ("t2")
        (fun _ => ErrorHandler.SpawnResult.exit 0)
        (some { task_name := "t2", failures := 5, last_failure := some 0,
                last_success := none, consecutive_failures := 3 }) 100).attempts =
       some (ErrorHandler.execute_with_retry ("t2")
        (fun _ => ErrorHandler.SpawnResult.exit 0)
        (some { task_name := "t2", failures := 5, last_failure := some 0,
                last_success := none, consecutive_failures := 3 }) 100).spawns) := by
  decide

/-- C10 (amended): every `execute_with_retry` call terminates (the model is
a total function) and spawns the command at most `max_retries + 1` times
under the task's resolved per-name policy; a non-skipped call returns an
`attempts` field equal to the number of spawns performed, sleeps exactly
once between consecutive spawns (events are one fewer than spawns), and
finishes at the start time plus the sum of the sleeps; a skipped call
performs zero spawns and returns no `attempts` field. -/
theorem c10_retry_budget_and_attempts (name : String)
    (runs : Nat → ErrorHandler.SpawnResult) (st0 : Option ErrorHandler.TaskState)
    (now : Nat) :
    (ErrorHandler.execute_with_retry name runs st0 now).spawns ≤
      (ErrorHandler.resolve_config name).max_retries + 1 ∧
    ((ErrorHandler.execute_with_retry name runs st0 now).skipped = false →
      (ErrorHandler.execute_with_retry name runs st0 now).attempts =
        some (ErrorHandler.execute_with_retry name runs st0 now).spawns ∧
      (ErrorHandler.execute_with_retry name runs st0 now).events.length + 1 =
        (ErrorHandler.execute_with_retry name runs st0 now).spawns ∧
      (ErrorHandler.execute_with_retry name runs st0 now).endTime =
        now + ((ErrorHandler.execute_with_retry name runs st0 now).events.map
                ErrorHandler.RetryEvent.delay).sum) ∧
    ((ErrorHandler.execute_with_retry name runs st0 now).skipped = true →
      (ErrorHandler.execute_with_retry name runs st0 now).spawns = 0 ∧
      (ErrorHandler.execute_with_retry name runs st0 now).attempts = none) := by
  by_cases hs : ErrorHandler.skip_guard (st0.getD (ErrorHandler.fresh_state name))
      (ErrorHandler.resolve_config name).max_retries now = true
  · rw [ErrorHandler.execute_with_retry_eq_skip name runs st0 now hs]
    refine ⟨Nat.zero_le _, ?_, fun _ => ⟨rfl, rfl⟩⟩
    intro h
    simp at h
  · rw [ErrorHandler.execute_with_retry_eq_loop name runs st0 now (by simpa using hs)]
    refine ⟨?_, ?_, ?_⟩
    · simpa using ErrorHandler.exec_loop_spawns_le name runs
        (ErrorHandler.resolve_config name).max_retries 0
        (st0.getD (ErrorHandler.fresh_state name)) now [] 0
    · intro _
      refine ⟨?_, ?_, ?_⟩
      · exact ErrorHandler.exec_loop_attempts_spawns name runs
          (ErrorHandler.resolve_config name).max_retries 0
          (st0.getD (ErrorHandler.fresh_state name)) now [] 0 rfl
      · have := ErrorHandler.exec_loop_events_spawns name runs
          (ErrorHandler.resolve_config name).max_retries 0
          (st0.getD (ErrorHandler.fresh_state name)) now [] 0
        simpa using this
      · have := ErrorHandler.exec_loop_time name runs
          (ErrorHandler.resolve_config name).max_retries 0
          (st0.getD (ErrorHandler.fresh_state name)) now [] 0
        simpa using this
    · intro h
      rw [ErrorHandler.exec_loop_never_skipped name runs
        (ErrorHandler.resolve_config name).max_retries 0
        (st0.getD (ErrorHandler.fresh_state name)) now [] 0] at h
      simp at h

/-- Witness for C10: a fresh task failing every spawn under the default
policy spawns 4 times and reports 4 attempts. -/
theorem c10_retry_budget_and_attempts_witness :
    (ErrorHandler.execute_with_retry ("t4")
      (fun _ => ErrorHandler.SpawnResult.exit 1) none 0).spawns ≤
      (ErrorHandler.resolve_config ("t4")).max_retries + 1 ∧
    (ErrorHandler.execute_with_retry ("t4")
      (fun _ => ErrorHandler.SpawnResult.exit 1) none 0).attempts =
      some (ErrorHandler.execute_with_retry ("t4")
        (fun _ => ErrorHandler.SpawnResult.exit 1) none 0).spawns :=
  have h := c10_retry_budget_and_attempts ("t4")
    (fun _ => ErrorHandler.SpawnResult.exit 1) none 0
  ⟨h.1, (h.2.1 (by decide)).1⟩
